import Mathlib

/-!
Shallow embedding of the keepalived BFD core (src/keepalived/bfd) and proofs
about its control-packet validation, state machine, timer discipline and
configuration handlers.

Integers: all C fields involved are unsigned (u_char bitfields, u_int32_t)
and every operation used here (comparisons, max, multiplication of a u_char
by a u_int32_t detection multiplier) stays far below 2^32 overflow in the
claims considered, so fields are modelled as Nat; signed config values read
by atoi are modelled as Int.
-/

/-! ### Constants from include/bfd.h -/

def BFD_STATE_ADMINDOWN : Nat := 0
def BFD_STATE_DOWN : Nat := 1
def BFD_STATE_INIT : Nat := 2
def BFD_STATE_UP : Nat := 3

def BFD_DIAG_NO_DIAG : Nat := 0
def BFD_DIAG_EXPIRED : Nat := 1
def BFD_DIAG_NBR_SIGNALLED_DOWN : Nat := 3
def BFD_DIAG_ADMIN_DOWN : Nat := 7

def BFD_VERSION_1 : Nat := 1
def BFD_CONTROL_TTL : Nat := 255

/-- Macro BFD_VALID_STATE from bfd.h: s is valid when 0 <= s <= 3 (the state
wire field is 2 bits wide, but the macro is checked as written). -/
def BFD_VALID_STATE (s : Nat) : Prop := s ≤ 3

/-- Macro BFD_VALID_DIAG from bfd.h: d is valid when 0 <= d <= 8. -/
def BFD_VALID_DIAG (d : Nat) : Prop := d ≤ 8

instance (s : Nat) : Decidable (BFD_VALID_STATE s) := inferInstanceAs (Decidable (s ≤ 3))
instance (d : Nat) : Decidable (BFD_VALID_DIAG d) := inferInstanceAs (Decidable (d ≤ 8))

/-! ### Data model: bfdhdr_t, bfdpkt_t and bfd_t from include/bfd.h -/

/-- Wire header bfdhdr_t. In the C struct local_discr holds the packet's
My Discriminator and remote_discr its Your Discriminator. -/
structure bfdhdr_t where
  version : Nat
  diag : Nat
  state : Nat
  poll : Nat
  final : Nat
  cplane : Nat
  auth : Nat
  demand : Nat
  multipoint : Nat
  detect_mult : Nat
  len : Nat
  local_discr : Nat
  remote_discr : Nat
  min_tx_intv : Nat
  min_rx_intv : Nat
  min_echo_rx_intv : Nat
  deriving Repr, DecidableEq

/-- Received packet bfdpkt_t: the parsed header plus the receive length and
the TTL recovered from the IP control message (0 when absent). -/
structure bfdpkt_t where
  hdr : bfdhdr_t
  ttl : Nat
  len : Nat
  deriving Repr, DecidableEq

/-- Session record bfd_t. Timer handles thread_out / thread_exp / thread_rst
are modelled by their scheduled-or-not status; the events field is a ghost
log of the local states published through bfd_event_send, in order. -/
structure bfd_t where
  local_min_rx_intv : Nat
  local_min_tx_intv : Nat
  local_idle_tx_intv : Nat
  local_detect_mult : Nat
  disabled : Bool
  local_state : Nat
  remote_state : Nat
  local_discr : Nat
  remote_discr : Nat
  local_diag : Nat
  remote_diag : Nat
  remote_min_tx_intv : Nat
  remote_min_rx_intv : Nat
  local_demand : Nat
  remote_demand : Nat
  remote_detect_mult : Nat
  poll : Nat
  final : Nat
  local_tx_intv : Nat
  remote_tx_intv : Nat
  local_detect_time : Nat
  remote_detect_time : Nat
  last_seen : Nat
  thread_out : Bool
  thread_exp : Bool
  thread_rst : Bool
  events : List Nat
  deriving Repr, DecidableEq

/-! ### bfd.c: packet validation -/

/-- Function bfd_check_packet from bfd.c, line for line: returns 1 at the
first failing check, 0 when the packet is acceptable. sizeof(bfdhdr_t)
is 24 bytes. -/
def bfd_check_packet (pkt : bfdpkt_t) : Nat :=
  if pkt.len < 24 then 1
  else if pkt.hdr.len ≠ pkt.len then 1
  else if pkt.ttl ≠ 0 ∧ pkt.ttl ≠ BFD_CONTROL_TTL then 1
  else if pkt.hdr.version ≠ BFD_VERSION_1 then 1
  else if pkt.hdr.detect_mult = 0 then 1
  else if pkt.hdr.multipoint ≠ 0 then 1
  else if pkt.hdr.local_discr = 0 then 1
  else if pkt.hdr.remote_discr = 0 ∧ pkt.hdr.state ≠ BFD_STATE_DOWN
          ∧ pkt.hdr.state ≠ BFD_STATE_ADMINDOWN then 1
  else if pkt.hdr.poll ≠ 0 ∧ pkt.hdr.final ≠ 0 then 1
  else if ¬ BFD_VALID_STATE pkt.hdr.state then 1
  else if ¬ BFD_VALID_DIAG pkt.hdr.diag then 1
  else 0

/-! ### bfd.c: session state helpers -/

/-- Initial state bfd0 from bfd.c: a static const struct, so every field not
named in the initializer is zero (timer handles null, ghost event log empty).
Note remote_state is initialised to BFD_STATE_DOWN, i.e. the value 1. -/
def bfd0 : bfd_t :=
  { local_min_rx_intv := 0
    local_min_tx_intv := 0
    local_idle_tx_intv := 0
    local_detect_mult := 0
    disabled := false
    local_state := BFD_STATE_DOWN
    remote_state := BFD_STATE_DOWN
    local_discr := 0
    remote_discr := 0
    local_diag := BFD_DIAG_NO_DIAG
    remote_diag := BFD_DIAG_NO_DIAG
    remote_min_tx_intv := 0
    remote_min_rx_intv := 0
    local_demand := 0
    remote_demand := 0
    remote_detect_mult := 0
    poll := 0
    final := 0
    local_tx_intv := 0
    remote_tx_intv := 0
    local_detect_time := 0
    remote_detect_time := 0
    last_seen := 0
    thread_out := false
    thread_exp := false
    thread_rst := false
    events := [] }

/-- Function bfd_update_local_tx_intv from bfd.c: the C ternary with the
greater of local_min_tx_intv and remote_min_rx_intv. -/
def bfd_update_local_tx_intv (b : bfd_t) : bfd_t :=
  { b with local_tx_intv := max b.local_min_tx_intv b.remote_min_rx_intv }

/-- Function bfd_update_remote_tx_intv from bfd.c. -/
def bfd_update_remote_tx_intv (b : bfd_t) : bfd_t :=
  { b with remote_tx_intv := max b.local_min_rx_intv b.remote_min_tx_intv }

/-- Function bfd_idle_local_tx_intv from bfd.c. -/
def bfd_idle_local_tx_intv (b : bfd_t) : bfd_t :=
  { b with local_tx_intv := b.local_idle_tx_intv }

/-- Function bfd_set_poll from bfd.c: start a poll sequence, unless a Final
is pending (RFC 5880 permits carrying the new values on the Final packet). -/
def bfd_set_poll (b : bfd_t) : bfd_t :=
  if b.final ≠ 1 then { b with poll := 1 } else b

/-- Function bfd_copy_state from bfd.c: copies exactly the listed state
variables of bfd_old into bfd, leaving configuration fields and timer
handles of the destination alone. -/
def bfd_copy_state (bfd_old b : bfd_t) : bfd_t :=
  { b with
    local_state := bfd_old.local_state
    remote_state := bfd_old.remote_state
    local_discr := bfd_old.local_discr
    remote_discr := bfd_old.remote_discr
    local_diag := bfd_old.local_diag
    remote_diag := bfd_old.remote_diag
    remote_min_tx_intv := bfd_old.remote_min_tx_intv
    remote_min_rx_intv := bfd_old.remote_min_rx_intv
    local_demand := bfd_old.local_demand
    remote_demand := bfd_old.remote_demand
    remote_detect_mult := bfd_old.remote_detect_mult
    poll := bfd_old.poll
    final := bfd_old.final
    local_tx_intv := bfd_old.local_tx_intv
    remote_tx_intv := bfd_old.remote_tx_intv
    local_detect_time := bfd_old.local_detect_time
    remote_detect_time := bfd_old.remote_detect_time
    last_seen := bfd_old.last_seen }

/-- Function bfd_init_state from bfd.c. bfd_get_random_discr lives in
bfd_data.c, which is not among the sources here; modelled from the spec:
it returns a fresh random non-zero discriminator, unique within the
process, passed in as the parameter fresh_discr. -/
def bfd_init_state (b : bfd_t) (fresh_discr : Nat) : bfd_t :=
  let b := bfd_copy_state bfd0 b
  { b with local_discr := fresh_discr, local_tx_intv := b.local_idle_tx_intv }

/-- Function bfd_build_packet from bfd.c, restricted to the header it fills
in (the buffer bookkeeping and destination address are not modelled):
reserved bits cplane, auth, multipoint and the echo interval are written 0,
length is sizeof(bfdhdr_t) = 24. -/
def bfd_build_packet (b : bfd_t) : bfdhdr_t :=
  { version := BFD_VERSION_1
    diag := b.local_diag
    state := b.local_state
    poll := b.poll
    final := b.final
    cplane := 0
    auth := 0
    demand := b.local_demand
    multipoint := 0
    detect_mult := b.local_detect_mult
    len := 24
    local_discr := b.local_discr
    remote_discr := b.remote_discr
    min_tx_intv := b.local_min_tx_intv
    min_rx_intv := b.local_min_rx_intv
    min_echo_rx_intv := 0 }

/-! ### bfd_scheduler.c: event publication and state-change handlers.
Timer scheduling is modelled on the scheduled-or-not status of each of the
three per-session timer handles; cancel-and-rearm (reschedule) therefore
leaves the status true. -/

/-- Function bfd_event_send from bfd_event.c: publishes the instance name,
the new local state and a timestamp to the parent process; modelled as
appending the published local state to the ghost event log. -/
def bfd_event_send (b : bfd_t) : bfd_t :=
  { b with events := b.events ++ [b.local_state] }

/-- Function bfd_sender_schedule from bfd_scheduler.c: arms the transmit
timer (asserts it was not scheduled). -/
def bfd_sender_schedule (b : bfd_t) : bfd_t := { b with thread_out := true }

/-- Function bfd_expire_schedule from bfd_scheduler.c. -/
def bfd_expire_schedule (b : bfd_t) : bfd_t := { b with thread_exp := true }

/-- Function bfd_reset_schedule from bfd_scheduler.c. -/
def bfd_reset_schedule (b : bfd_t) : bfd_t := { b with thread_rst := true }

/-- Function bfd_state_fall from bfd_scheduler.c: common actions for Down
and AdminDown: reset local_tx_intv to the idle interval, cancel the expire
timer if scheduled, publish the event. -/
def bfd_state_fall (b : bfd_t) : bfd_t :=
  let b := bfd_idle_local_tx_intv b
  let b := if b.thread_exp then { b with thread_exp := false } else b
  bfd_event_send b

/-- Function bfd_state_down from bfd_scheduler.c: enter Down with the given
diagnostic, arm the reset timer, then the common fall actions. -/
def bfd_state_down (b : bfd_t) (diag : Nat) : bfd_t :=
  let b := { b with local_state := BFD_STATE_DOWN, local_diag := diag }
  let b := bfd_reset_schedule b
  bfd_state_fall b

/-- Function bfd_state_admindown from bfd_scheduler.c. -/
def bfd_state_admindown (b : bfd_t) : bfd_t :=
  let b := { b with local_state := BFD_STATE_ADMINDOWN, local_diag := BFD_DIAG_ADMIN_DOWN }
  let b := if b.thread_out then { b with thread_out := false } else b
  bfd_state_fall b

/-- Function bfd_state_rise from bfd_scheduler.c: common actions for Init
and Up: clear the diagnostic, cancel the reset timer if scheduled, arm the
expire timer if not scheduled, publish the event. -/
def bfd_state_rise (b : bfd_t) : bfd_t :=
  let b := { b with local_diag := BFD_DIAG_NO_DIAG }
  let b := if b.thread_rst then { b with thread_rst := false } else b
  let b := if ¬ b.thread_exp then bfd_expire_schedule b else b
  bfd_event_send b

/-- Function bfd_state_up from bfd_scheduler.c. -/
def bfd_state_up (b : bfd_t) : bfd_t :=
  bfd_state_rise { b with local_state := BFD_STATE_UP }

/-- Function bfd_state_init from bfd_scheduler.c (asserts the session is
not Up: RFC 5880 forbids a direct Up to Init transition). -/
def bfd_state_init (b : bfd_t) : bfd_t :=
  bfd_state_rise { b with local_state := BFD_STATE_INIT }

/-! ### bfd_scheduler.c: timer threads -/

/-- Function bfd_expire_thread from bfd_scheduler.c (asserts the session is
Up or Init): the handle is cleared as the timer fired, remote_discr is
zeroed per RFC 5880 and the Down transition runs with diag EXPIRED. -/
def bfd_expire_thread (b : bfd_t) : bfd_t :=
  let b := { b with thread_exp := false }
  let b := { b with remote_discr := 0 }
  bfd_state_down b BFD_DIAG_EXPIRED

/-- Function bfd_reset_thread from bfd_scheduler.c: the handle is cleared as
the timer fired, then the session runtime is reset to the initial state with
a fresh discriminator (see bfd_init_state). -/
def bfd_reset_thread (b : bfd_t) (fresh_discr : Nat) : bfd_t :=
  let b := { b with thread_rst := false }
  bfd_init_state b fresh_discr

/-- Minimum jitter computed in bfd_sender_schedule: local_tx_intv * 0.1
truncated to an unsigned int when local_detect_mult is non-zero, else 0.
For every 32-bit interval the truncated IEEE-double product equals Nat
division by 10 (0.1 rounds up as a double, and the error stays below the
distance to the next integer), so it is embedded as such. -/
def bfd_sender_min_jitter (b : bfd_t) : Nat :=
  if b.local_detect_mult ≠ 0 then b.local_tx_intv / 10 else 0

/-- Maximum jitter passed to rand_intv in bfd_sender_schedule:
local_tx_intv * 0.25, exact in IEEE double, truncated to Nat division. -/
def bfd_sender_max_jitter (b : bfd_t) : Nat := b.local_tx_intv / 4

/-- Delay armed by bfd_sender_schedule: local_tx_intv minus the jitter drawn
by rand_intv. rand_intv lives in utils.c, which is not among the sources
here; modelled from the spec: it draws a uniform value in
[min_jitter, 0.25 x local_tx_intv], passed in as the jitter argument. -/
def bfd_sender_delay (b : bfd_t) (jitter : Nat) : Nat := b.local_tx_intv - jitter

/-- Function bfd_sender_thread from bfd_scheduler.c: clears its handle,
builds and sends one control packet (send success is the send_ok argument;
on failure the session is disabled into AdminDown), resets the final flag
if set, and re-arms the periodic timer unless running as the immediate
one-shot event (isEvent) or now AdminDown. Returns the packet header it
transmitted together with the new session state. -/
def bfd_sender_thread (b : bfd_t) (isEvent send_ok : Bool) : bfdhdr_t × bfd_t :=
  let b := { b with thread_out := false }
  let pkt := bfd_build_packet b
  let b := if ¬ send_ok then bfd_state_admindown b else b
  let b := if b.final ≠ 0 then { b with final := 0 } else b
  let b := if ¬ isEvent ∧ b.local_state ≠ BFD_STATE_ADMINDOWN then bfd_sender_schedule b else b
  (pkt, b)

/-! ### bfd_scheduler.c: bfd_handle_packet, split into its successive
blocks exactly as they appear in the source. -/

/-- Block of bfd_handle_packet that copies the packet fields into the
remote state variables and terminates a pending poll sequence when the
packet carries Final. -/
def bfd_handle_pkt_update (pkt : bfdpkt_t) (b : bfd_t) : bfd_t :=
  let b := { b with
    remote_discr := pkt.hdr.local_discr
    remote_state := pkt.hdr.state
    remote_diag := pkt.hdr.diag
    remote_min_rx_intv := pkt.hdr.min_rx_intv
    remote_min_tx_intv := pkt.hdr.min_tx_intv
    remote_demand := pkt.hdr.demand
    remote_detect_mult := pkt.hdr.detect_mult }
  if pkt.hdr.final ≠ 0 then { b with poll := 0 } else b

/-- Block of bfd_handle_packet that recalculates local and remote TX
intervals when the packet bears Final or Poll or the session is not Up,
then recomputes both detection times. The subsequent
bfd_sender_reschedule on a reduced local_tx_intv is a cancel plus re-arm,
which leaves the modelled scheduled status of the transmit timer as it
was, so it does not appear on the modelled state. -/
def bfd_handle_pkt_intervals (pkt : bfdpkt_t) (b : bfd_t) : bfd_t :=
  let b := if (pkt.hdr.final ≠ 0 ∧ b.local_state = BFD_STATE_UP)
              ∨ (pkt.hdr.poll ≠ 0 ∧ b.local_state = BFD_STATE_UP)
              ∨ b.local_state ≠ BFD_STATE_UP
           then bfd_update_remote_tx_intv (bfd_update_local_tx_intv b)
           else b
  { b with
    local_detect_time := b.remote_detect_mult * b.remote_tx_intv
    remote_detect_time := b.local_detect_mult * b.local_tx_intv }

/-- Block of bfd_handle_packet labelled BFD state machine: dispatch on the
freshly updated remote state and the local state. -/
def bfd_handle_pkt_fsm (b : bfd_t) : bfd_t :=
  if b.remote_state = BFD_STATE_ADMINDOWN ∧ b.local_state ≠ BFD_STATE_DOWN then
    bfd_state_down b BFD_DIAG_NBR_SIGNALLED_DOWN
  else if b.local_state = BFD_STATE_DOWN then
    if b.remote_state = BFD_STATE_DOWN then bfd_state_init b
    else if b.remote_state = BFD_STATE_INIT then bfd_state_up b
    else b
  else if b.local_state = BFD_STATE_INIT then
    if b.remote_state = BFD_STATE_INIT ∨ b.remote_state = BFD_STATE_UP then bfd_state_up b
    else b
  else if b.local_state = BFD_STATE_UP then
    if b.remote_state = BFD_STATE_DOWN then bfd_state_down b BFD_DIAG_NBR_SIGNALLED_DOWN
    else b
  else b

/-- Block of bfd_handle_packet that suppresses the transmitter while the
remote asks for demand mode with both sides Up, and (re)schedules it in
every other condition. -/
def bfd_handle_pkt_demand (b : bfd_t) : bfd_t :=
  let b := if b.remote_demand ≠ 0 ∧ b.local_state = BFD_STATE_UP
              ∧ b.remote_state = BFD_STATE_UP ∧ b.thread_out
           then { b with thread_out := false } else b
  if (b.remote_demand = 0 ∨ b.local_state ≠ BFD_STATE_UP ∨ b.remote_state ≠ BFD_STATE_UP)
      ∧ ¬ b.thread_out
  then bfd_sender_schedule b else b

/-- Block of bfd_handle_packet that answers a received Poll: set the final
flag; the immediate one-shot transmit it queues with thread_add_event is
modelled as a separate bfd_sender_thread step. -/
def bfd_handle_pkt_poll (pkt : bfdpkt_t) (b : bfd_t) : bfd_t :=
  if pkt.hdr.poll ≠ 0 then { b with final := 1 } else b

/-- Function bfd_handle_packet from bfd_scheduler.c, acting on the session
the dispatcher demuxed the packet to (now is the receive timestamp written
to last_seen). A packet failing bfd_check_packet, carrying the auth bit, or
arriving while the session is AdminDown leaves the session untouched.
The final expire reschedule is a cancel plus re-arm of an already
scheduled timer, identity on the modelled scheduled status. -/
def bfd_handle_packet (pkt : bfdpkt_t) (b : bfd_t) (now : Nat) : bfd_t :=
  if bfd_check_packet pkt ≠ 0 then b
  else if pkt.hdr.auth ≠ 0 then b
  else if b.local_state = BFD_STATE_ADMINDOWN then b
  else
    let b := bfd_handle_pkt_update pkt b
    let b := bfd_handle_pkt_intervals pkt b
    let b := bfd_handle_pkt_fsm b
    let b := bfd_handle_pkt_demand b
    let b := bfd_handle_pkt_poll pkt b
    { b with last_seen := now }

/-! ### bfd_parser.c: per-keyword configuration handlers. Each receives the
atoi of the configuration token (a C int, hence Int) and acts on the
session at the tail of the instance list; an out-of-range value is logged
and ignored. In-range values are stored in microseconds. -/

def BFD_MINRX_MIN : Int := 1
def BFD_MINRX_MAX : Int := 1000
def BFD_MINTX_MIN : Int := 1
def BFD_MINTX_MAX : Int := 1000
def BFD_IDLETX_MIN : Int := 1000
def BFD_IDLETX_MAX : Int := 10000
def BFD_MULTIPLIER_MIN : Int := 1
def BFD_MULTIPLIER_MAX : Int := 10

/-- Function bfd_minrx_handler from bfd_parser.c. -/
def bfd_minrx_handler (b : bfd_t) (value : Int) : bfd_t :=
  if value < BFD_MINRX_MIN ∨ value > BFD_MINRX_MAX then b
  else { b with local_min_rx_intv := (value * 1000).toNat }

/-- Function bfd_mintx_handler from bfd_parser.c. -/
def bfd_mintx_handler (b : bfd_t) (value : Int) : bfd_t :=
  if value < BFD_MINTX_MIN ∨ value > BFD_MINTX_MAX then b
  else { b with local_min_tx_intv := (value * 1000).toNat }

/-- Function bfd_idletx_handler from bfd_parser.c. -/
def bfd_idletx_handler (b : bfd_t) (value : Int) : bfd_t :=
  if value < BFD_IDLETX_MIN ∨ value > BFD_IDLETX_MAX then b
  else { b with local_idle_tx_intv := (value * 1000).toNat }

/-- Function bfd_multiplier_handler from bfd_parser.c. -/
def bfd_multiplier_handler (b : bfd_t) (value : Int) : bfd_t :=
  if value < BFD_MULTIPLIER_MIN ∨ value > BFD_MULTIPLIER_MAX then b
  else { b with local_detect_mult := value.toNat }

/-! ### Concrete fixtures used in witnesses and counterexamples -/

/-- A freshly configured session (min_rx = min_tx = 10 ms, idle_tx = 1 s,
multiplier 5) right after bfd_init_state and bfd_register_workers: Down,
transmit timer armed, discriminator 42. -/
def bfd_cold : bfd_t :=
  { local_min_rx_intv := 10000
    local_min_tx_intv := 10000
    local_idle_tx_intv := 1000000
    local_detect_mult := 5
    disabled := false
    local_state := BFD_STATE_DOWN
    remote_state := BFD_STATE_DOWN
    local_discr := 42
    remote_discr := 0
    local_diag := BFD_DIAG_NO_DIAG
    remote_diag := BFD_DIAG_NO_DIAG
    remote_min_tx_intv := 0
    remote_min_rx_intv := 0
    local_demand := 0
    remote_demand := 0
    remote_detect_mult := 0
    poll := 0
    final := 0
    local_tx_intv := 1000000
    remote_tx_intv := 0
    local_detect_time := 0
    remote_detect_time := 0
    last_seen := 0
    thread_out := true
    thread_exp := false
    thread_rst := false
    events := [] }

/-- The same session established Up with the peer (discriminators 42/7,
negotiated 50 ms intervals, remote multiplier 3). -/
def bfd_up : bfd_t :=
  { bfd_cold with
    local_state := BFD_STATE_UP
    remote_state := BFD_STATE_UP
    remote_discr := 7
    remote_min_tx_intv := 50000
    remote_min_rx_intv := 50000
    remote_detect_mult := 3
    local_tx_intv := 50000
    remote_tx_intv := 50000
    local_detect_time := 150000
    remote_detect_time := 250000
    thread_exp := true }

/-- A well-formed peer control packet: version 1, length 24, TTL 255,
multiplier 3, My Discriminator 7, 50 ms intervals; state, flags and
Your Discriminator vary per fixture. -/
def mk_peer_pkt (state poll fin auth your_discr : Nat) : bfdpkt_t :=
  { hdr :=
      { version := 1
        diag := 0
        state := state
        poll := poll
        final := fin
        cplane := 0
        auth := auth
        demand := 0
        multipoint := 0
        detect_mult := 3
        len := 24
        local_discr := 7
        remote_discr := your_discr
        min_tx_intv := 50000
        min_rx_intv := 50000
        min_echo_rx_intv := 0 }
    ttl := 255
    len := 24 }

/-- A session that has expired back to Down but still holds stale remote
state (used for the reset-timer claims). -/
def bfd_stale : bfd_t :=
  { bfd_up with local_state := BFD_STATE_DOWN, local_diag := BFD_DIAG_EXPIRED,
                remote_discr := 0, local_tx_intv := 1000000,
                thread_exp := false, thread_rst := true }

/-- An Up session whose negotiated transmit interval is not a multiple of
10 microseconds, with detection multiplier 1 (the remote required-min-rx
field of a peer packet may carry any 32-bit value, so such intervals are
reachable). -/
def bfd_jitter15 : bfd_t :=
  { bfd_up with local_tx_intv := 15, local_detect_mult := 1 }

/-- Cold bring-up trace: the peer reports Down, the session goes Init. -/
def bfd_trace1 : bfd_t := bfd_handle_packet (mk_peer_pkt 1 0 0 0 0) bfd_cold 100

/-- The peer reports Init: the session goes Up. -/
def bfd_trace2 : bfd_t := bfd_handle_packet (mk_peer_pkt 2 0 0 0 42) bfd_trace1 200

/-- The operator raises local_min_rx_intv, so bfd_set_poll starts a poll
sequence on the Up session. -/
def bfd_trace3 : bfd_t := bfd_set_poll bfd_trace2

/-- While the poll sequence is outstanding the peer itself sends a packet
with the Poll bit set (Up, poll = 1, final = 0, a packet bfd_check_packet
accepts). -/
def bfd_trace4 : bfd_t := bfd_handle_packet (mk_peer_pkt 3 1 0 0 42) bfd_trace3 300

/-! ### Helper lemmas: closed forms of the state-change handlers -/

theorem bfd_state_down_eq (b : bfd_t) (d : Nat) :
    bfd_state_down b d =
      { b with local_state := BFD_STATE_DOWN, local_diag := d, thread_rst := true,
               thread_exp := false, local_tx_intv := b.local_idle_tx_intv,
               events := b.events ++ [BFD_STATE_DOWN] } := by
  simp only [bfd_state_down, bfd_reset_schedule, bfd_state_fall, bfd_idle_local_tx_intv,
    bfd_event_send]
  split <;> simp_all

theorem bfd_state_up_eq (b : bfd_t) :
    bfd_state_up b =
      { b with local_state := BFD_STATE_UP, local_diag := BFD_DIAG_NO_DIAG,
               thread_rst := false, thread_exp := true,
               events := b.events ++ [BFD_STATE_UP] } := by
  simp only [bfd_state_up, bfd_state_rise, bfd_expire_schedule, bfd_event_send]
  split <;> split <;> simp_all

theorem bfd_state_init_eq (b : bfd_t) :
    bfd_state_init b =
      { b with local_state := BFD_STATE_INIT, local_diag := BFD_DIAG_NO_DIAG,
               thread_rst := false, thread_exp := true,
               events := b.events ++ [BFD_STATE_INIT] } := by
  simp only [bfd_state_init, bfd_state_rise, bfd_expire_schedule, bfd_event_send]
  split <;> split <;> simp_all

/-! ### Helper lemmas: what each bfd_handle_packet block leaves alone -/

theorem bfd_handle_pkt_update_fields (pkt : bfdpkt_t) (b : bfd_t) :
    (bfd_handle_pkt_update pkt b).local_state = b.local_state ∧
    (bfd_handle_pkt_update pkt b).remote_state = pkt.hdr.state ∧
    (bfd_handle_pkt_update pkt b).local_diag = b.local_diag ∧
    (bfd_handle_pkt_update pkt b).local_min_tx_intv = b.local_min_tx_intv ∧
    (bfd_handle_pkt_update pkt b).local_min_rx_intv = b.local_min_rx_intv ∧
    (bfd_handle_pkt_update pkt b).remote_min_rx_intv = pkt.hdr.min_rx_intv ∧
    (bfd_handle_pkt_update pkt b).remote_min_tx_intv = pkt.hdr.min_tx_intv ∧
    (bfd_handle_pkt_update pkt b).local_tx_intv = b.local_tx_intv ∧
    (bfd_handle_pkt_update pkt b).remote_tx_intv = b.remote_tx_intv := by
  simp only [bfd_handle_pkt_update]
  split <;> simp

theorem bfd_handle_pkt_intervals_fields (pkt : bfdpkt_t) (b : bfd_t) :
    (bfd_handle_pkt_intervals pkt b).local_state = b.local_state ∧
    (bfd_handle_pkt_intervals pkt b).remote_state = b.remote_state ∧
    (bfd_handle_pkt_intervals pkt b).local_diag = b.local_diag := by
  simp only [bfd_handle_pkt_intervals, bfd_update_local_tx_intv, bfd_update_remote_tx_intv]
  split <;> simp

theorem bfd_handle_pkt_demand_fields (b : bfd_t) :
    (bfd_handle_pkt_demand b).local_state = b.local_state ∧
    (bfd_handle_pkt_demand b).local_diag = b.local_diag ∧
    (bfd_handle_pkt_demand b).events = b.events := by
  simp only [bfd_handle_pkt_demand, bfd_sender_schedule]
  split <;> split <;> simp

theorem bfd_handle_pkt_poll_fields (pkt : bfdpkt_t) (b : bfd_t) :
    (bfd_handle_pkt_poll pkt b).local_state = b.local_state ∧
    (bfd_handle_pkt_poll pkt b).local_diag = b.local_diag ∧
    (bfd_handle_pkt_poll pkt b).events = b.events := by
  simp only [bfd_handle_pkt_poll]
  split <;> simp

/-- On an accepted packet (validation passed, no auth bit, session not
AdminDown) bfd_handle_packet is the composition of its five blocks
followed by the last_seen update. -/
theorem bfd_handle_packet_eq (pkt : bfdpkt_t) (b : bfd_t) (now : Nat)
    (hacc : bfd_check_packet pkt = 0) (hauth : pkt.hdr.auth = 0)
    (hadm : b.local_state ≠ BFD_STATE_ADMINDOWN) :
    bfd_handle_packet pkt b now =
      { bfd_handle_pkt_poll pkt (bfd_handle_pkt_demand (bfd_handle_pkt_fsm
          (bfd_handle_pkt_intervals pkt (bfd_handle_pkt_update pkt b))))
        with last_seen := now } := by
  unfold bfd_handle_packet
  rw [if_neg (by simp [hacc]), if_neg (by simp [hauth]), if_neg hadm]

/-! ### Helper lemmas: the BFD state machine block case by case -/

theorem bfd_handle_pkt_fsm_nbr_admindown (b : bfd_t)
    (hr : b.remote_state = BFD_STATE_ADMINDOWN) (hl : b.local_state ≠ BFD_STATE_DOWN) :
    (bfd_handle_pkt_fsm b).local_state = BFD_STATE_DOWN ∧
    (bfd_handle_pkt_fsm b).local_diag = BFD_DIAG_NBR_SIGNALLED_DOWN := by
  unfold bfd_handle_pkt_fsm
  rw [if_pos ⟨hr, hl⟩, bfd_state_down_eq]
  simp

theorem bfd_handle_pkt_fsm_down_down (b : bfd_t)
    (hl : b.local_state = BFD_STATE_DOWN) (hr : b.remote_state = BFD_STATE_DOWN) :
    (bfd_handle_pkt_fsm b).local_state = BFD_STATE_INIT ∧
    (bfd_handle_pkt_fsm b).local_diag = BFD_DIAG_NO_DIAG := by
  unfold bfd_handle_pkt_fsm
  rw [if_neg (fun hc => by rw [hr] at hc; exact absurd hc.1 (by decide)),
    if_pos hl, if_pos hr, bfd_state_init_eq]
  simp

theorem bfd_handle_pkt_fsm_down_init (b : bfd_t)
    (hl : b.local_state = BFD_STATE_DOWN) (hr : b.remote_state = BFD_STATE_INIT) :
    (bfd_handle_pkt_fsm b).local_state = BFD_STATE_UP ∧
    (bfd_handle_pkt_fsm b).local_diag = BFD_DIAG_NO_DIAG := by
  unfold bfd_handle_pkt_fsm
  rw [if_neg (fun hc => by rw [hr] at hc; exact absurd hc.1 (by decide)),
    if_pos hl, if_neg (fun hc => by rw [hr] at hc; exact absurd hc (by decide)),
    if_pos hr, bfd_state_up_eq]
  simp

theorem bfd_handle_pkt_fsm_init_rise (b : bfd_t)
    (hl : b.local_state = BFD_STATE_INIT)
    (hr : b.remote_state = BFD_STATE_INIT ∨ b.remote_state = BFD_STATE_UP) :
    (bfd_handle_pkt_fsm b).local_state = BFD_STATE_UP ∧
    (bfd_handle_pkt_fsm b).local_diag = BFD_DIAG_NO_DIAG := by
  unfold bfd_handle_pkt_fsm
  rw [if_neg (fun hc => by rcases hr with h | h <;> rw [h] at hc <;> exact absurd hc.1 (by decide)),
    if_neg (fun hc => by rw [hl] at hc; exact absurd hc (by decide)),
    if_pos hl, if_pos hr, bfd_state_up_eq]
  simp

theorem bfd_handle_pkt_fsm_up_down (b : bfd_t)
    (hl : b.local_state = BFD_STATE_UP) (hr : b.remote_state = BFD_STATE_DOWN) :
    (bfd_handle_pkt_fsm b).local_state = BFD_STATE_DOWN ∧
    (bfd_handle_pkt_fsm b).local_diag = BFD_DIAG_NBR_SIGNALLED_DOWN := by
  unfold bfd_handle_pkt_fsm
  rw [if_neg (fun hc => by rw [hr] at hc; exact absurd hc.1 (by decide)),
    if_neg (fun hc => by rw [hl] at hc; exact absurd hc (by decide)),
    if_neg (fun hc => by rw [hl] at hc; exact absurd hc (by decide)),
    if_pos hl, if_pos hr, bfd_state_down_eq]
  simp

theorem bfd_handle_pkt_fsm_down_up (b : bfd_t)
    (hl : b.local_state = BFD_STATE_DOWN) (hr : b.remote_state = BFD_STATE_UP) :
    bfd_handle_pkt_fsm b = b := by
  unfold bfd_handle_pkt_fsm
  rw [if_neg (fun hc => by rw [hr] at hc; exact absurd hc.1 (by decide)),
    if_pos hl, if_neg (fun hc => by rw [hr] at hc; exact absurd hc (by decide)),
    if_neg (fun hc => by rw [hr] at hc; exact absurd hc (by decide))]

theorem bfd_with_last_seen_fields (b : bfd_t) (now : Nat) :
    ({ b with last_seen := now } : bfd_t).local_state = b.local_state ∧
    ({ b with last_seen := now } : bfd_t).local_diag = b.local_diag ∧
    ({ b with last_seen := now } : bfd_t).events = b.events ∧
    ({ b with last_seen := now } : bfd_t).poll = b.poll ∧
    ({ b with last_seen := now } : bfd_t).final = b.final := by
  simp

/-- C1: for every accepted control packet processed by the state machine
(validation passed, no auth bit, session not AdminDown): remote AdminDown
with local not Down gives Down with diag NBR_SIGNALLED_DOWN; Down+Down
gives Init; Down+Init gives Up; Init+Init and Init+Up give Up; Up+Down
gives Down with diag NBR_SIGNALLED_DOWN; every transition to Up or Init
clears the diagnostic to 0. -/
theorem bfd_handle_packet_state_machine (pkt : bfdpkt_t) (b : bfd_t) (now : Nat)
    (hacc : bfd_check_packet pkt = 0) (hauth : pkt.hdr.auth = 0)
    (hadm : b.local_state ≠ BFD_STATE_ADMINDOWN) :
    ((pkt.hdr.state = BFD_STATE_ADMINDOWN ∧ b.local_state ≠ BFD_STATE_DOWN) →
      (bfd_handle_packet pkt b now).local_state = BFD_STATE_DOWN ∧
      (bfd_handle_packet pkt b now).local_diag = BFD_DIAG_NBR_SIGNALLED_DOWN) ∧
    ((b.local_state = BFD_STATE_DOWN ∧ pkt.hdr.state = BFD_STATE_DOWN) →
      (bfd_handle_packet pkt b now).local_state = BFD_STATE_INIT ∧
      (bfd_handle_packet pkt b now).local_diag = BFD_DIAG_NO_DIAG) ∧
    ((b.local_state = BFD_STATE_DOWN ∧ pkt.hdr.state = BFD_STATE_INIT) →
      (bfd_handle_packet pkt b now).local_state = BFD_STATE_UP ∧
      (bfd_handle_packet pkt b now).local_diag = BFD_DIAG_NO_DIAG) ∧
    ((b.local_state = BFD_STATE_INIT ∧
        (pkt.hdr.state = BFD_STATE_INIT ∨ pkt.hdr.state = BFD_STATE_UP)) →
      (bfd_handle_packet pkt b now).local_state = BFD_STATE_UP ∧
      (bfd_handle_packet pkt b now).local_diag = BFD_DIAG_NO_DIAG) ∧
    ((b.local_state = BFD_STATE_UP ∧ pkt.hdr.state = BFD_STATE_DOWN) →
      (bfd_handle_packet pkt b now).local_state = BFD_STATE_DOWN ∧
      (bfd_handle_packet pkt b now).local_diag = BFD_DIAG_NBR_SIGNALLED_DOWN) := by
  have hU := bfd_handle_pkt_update_fields pkt b
  set U := bfd_handle_pkt_update pkt b with hUdef
  have hI := bfd_handle_pkt_intervals_fields pkt U
  set I := bfd_handle_pkt_intervals pkt U with hIdef
  set F := bfd_handle_pkt_fsm I with hFdef
  have hD := bfd_handle_pkt_demand_fields F
  set D := bfd_handle_pkt_demand F with hDdef
  have hP := bfd_handle_pkt_poll_fields pkt D
  set P := bfd_handle_pkt_poll pkt D with hPdef
  have hE : bfd_handle_packet pkt b now = { P with last_seen := now } := by
    rw [bfd_handle_packet_eq pkt b now hacc hauth hadm]
  rw [hE]
  have hls : I.local_state = b.local_state := by rw [hI.1, hU.1]
  have hrs : I.remote_state = pkt.hdr.state := by rw [hI.2.1, hU.2.1]
  have hfin : ∀ s d, F.local_state = s → F.local_diag = d →
      ({ P with last_seen := now } : bfd_t).local_state = s ∧
      ({ P with last_seen := now } : bfd_t).local_diag = d := by
    intro s d h1 h2
    refine ⟨?_, ?_⟩
    · show P.local_state = s
      rw [hP.1, hD.1, h1]
    · show P.local_diag = d
      rw [hP.2.1, hD.2.1, h2]
  refine ⟨?_, ?_, ?_, ?_, ?_⟩
  · rintro ⟨h1, h2⟩
    obtain ⟨hs, hd⟩ := bfd_handle_pkt_fsm_nbr_admindown I (by rw [hrs]; exact h1)
      (by rw [hls]; exact h2)
    exact hfin _ _ hs hd
  · rintro ⟨h1, h2⟩
    obtain ⟨hs, hd⟩ := bfd_handle_pkt_fsm_down_down I (by rw [hls]; exact h1)
      (by rw [hrs]; exact h2)
    exact hfin _ _ hs hd
  · rintro ⟨h1, h2⟩
    obtain ⟨hs, hd⟩ := bfd_handle_pkt_fsm_down_init I (by rw [hls]; exact h1)
      (by rw [hrs]; exact h2)
    exact hfin _ _ hs hd
  · rintro ⟨h1, h2⟩
    obtain ⟨hs, hd⟩ := bfd_handle_pkt_fsm_init_rise I (by rw [hls]; exact h1)
      (by rw [hrs]; exact h2)
    exact hfin _ _ hs hd
  · rintro ⟨h1, h2⟩
    obtain ⟨hs, hd⟩ := bfd_handle_pkt_fsm_up_down I (by rw [hls]; exact h1)
      (by rw [hrs]; exact h2)
    exact hfin _ _ hs hd

/-- Witness for C1 at a concrete input: a packet with remote state
AdminDown received by the established Up session drives it Down with
diagnostic NBR_SIGNALLED_DOWN. -/
theorem bfd_handle_packet_state_machine_witness :
    (bfd_handle_packet (mk_peer_pkt 0 0 0 0 0) bfd_up 5).local_state = BFD_STATE_DOWN ∧
    (bfd_handle_packet (mk_peer_pkt 0 0 0 0 0) bfd_up 5).local_diag
      = BFD_DIAG_NBR_SIGNALLED_DOWN :=
  (bfd_handle_packet_state_machine (mk_peer_pkt 0 0 0 0 0) bfd_up 5 (by decide) (by decide)
    (by decide)).1 (by decide)

/-- Counterexample to C2 as stated: a valid packet with remote state Up
received while the session is Down leaves the session in Down; it does not
transition to Up (the code follows RFC 5880, reaching Up only via Init). -/
theorem bfd_down_remote_up_cex :
    bfd_check_packet (mk_peer_pkt 3 0 0 0 42) = 0 ∧
    bfd_cold.local_state = BFD_STATE_DOWN ∧
    (mk_peer_pkt 3 0 0 0 42).hdr.state = BFD_STATE_UP ∧
    (bfd_handle_packet (mk_peer_pkt 3 0 0 0 42) bfd_cold 5).local_state ≠ BFD_STATE_UP := by
  decide

/-- C2 amended: for every accepted control packet with remote state Up
received while the session's local state is Down, the local state remains
Down (no transition; Up is reached from Down only through Init). -/
theorem bfd_handle_packet_down_remote_up_stays (pkt : bfdpkt_t) (b : bfd_t) (now : Nat)
    (hacc : bfd_check_packet pkt = 0) (hauth : pkt.hdr.auth = 0)
    (hl : b.local_state = BFD_STATE_DOWN) (hr : pkt.hdr.state = BFD_STATE_UP) :
    (bfd_handle_packet pkt b now).local_state = BFD_STATE_DOWN := by
  have hadm : b.local_state ≠ BFD_STATE_ADMINDOWN := by rw [hl]; decide
  have hU := bfd_handle_pkt_update_fields pkt b
  set U := bfd_handle_pkt_update pkt b with hUdef
  have hI := bfd_handle_pkt_intervals_fields pkt U
  set I := bfd_handle_pkt_intervals pkt U with hIdef
  have hF : bfd_handle_pkt_fsm I = I :=
    bfd_handle_pkt_fsm_down_up I (by rw [hI.1, hU.1]; exact hl) (by rw [hI.2.1, hU.2.1]; exact hr)
  rw [bfd_handle_packet_eq pkt b now hacc hauth hadm]
  have hD := bfd_handle_pkt_demand_fields (bfd_handle_pkt_fsm I)
  have hP := bfd_handle_pkt_poll_fields pkt (bfd_handle_pkt_demand (bfd_handle_pkt_fsm I))
  show (bfd_handle_pkt_poll pkt (bfd_handle_pkt_demand (bfd_handle_pkt_fsm I))).local_state
      = BFD_STATE_DOWN
  rw [hP.1, hD.1, hF, hI.1, hU.1]
  exact hl

/-- Witness for the amended C2 at a concrete input. -/
theorem bfd_handle_packet_down_remote_up_stays_witness :
    (bfd_handle_packet (mk_peer_pkt 3 0 0 0 42) bfd_cold 6).local_state = BFD_STATE_DOWN :=
  bfd_handle_packet_down_remote_up_stays (mk_peer_pkt 3 0 0 0 42) bfd_cold 6
    (by decide) (by decide) (by decide) (by decide)

/-- C4: when the expiration timer fires on a session in Up or Init, the
remote discriminator is cleared, the session enters Down with diagnostic
EXPIRED, local_tx_intv is reset to the idle interval, the reset timer is
armed, the expire timer is no longer scheduled, and a state-change event
(the new Down state) is published. -/
theorem bfd_expire_thread_spec (b : bfd_t)
    (h : b.local_state = BFD_STATE_UP ∨ b.local_state = BFD_STATE_INIT) :
    (bfd_expire_thread b).remote_discr = 0 ∧
    (bfd_expire_thread b).local_state = BFD_STATE_DOWN ∧
    (bfd_expire_thread b).local_diag = BFD_DIAG_EXPIRED ∧
    (bfd_expire_thread b).local_tx_intv = b.local_idle_tx_intv ∧
    (bfd_expire_thread b).thread_rst = true ∧
    (bfd_expire_thread b).thread_exp = false ∧
    (bfd_expire_thread b).events = b.events ++ [BFD_STATE_DOWN] := by
  unfold bfd_expire_thread
  rw [bfd_state_down_eq]
  simp

/-- Witness for C4 at a concrete input: the established Up session expires. -/
theorem bfd_expire_thread_spec_witness :
    (bfd_expire_thread bfd_up).remote_discr = 0 ∧
    (bfd_expire_thread bfd_up).local_state = BFD_STATE_DOWN ∧
    (bfd_expire_thread bfd_up).local_diag = BFD_DIAG_EXPIRED ∧
    (bfd_expire_thread bfd_up).local_tx_intv = bfd_up.local_idle_tx_intv ∧
    (bfd_expire_thread bfd_up).thread_rst = true ∧
    (bfd_expire_thread bfd_up).thread_exp = false ∧
    (bfd_expire_thread bfd_up).events = bfd_up.events ++ [BFD_STATE_DOWN] :=
  bfd_expire_thread_spec bfd_up (Or.inl (by decide))

/-- Counterexample to C6 as stated: a packet with the auth bit set but all
validated fields in order is NOT rejected by bfd_check_packet (it returns
0); the auth bit is never examined there. -/
theorem bfd_check_packet_auth_cex :
    (mk_peer_pkt 1 0 0 1 0).hdr.auth = 1 ∧
    bfd_check_packet (mk_peer_pkt 1 0 0 1 0) = 0 := by
  decide

/-- C6 amended: the auth bit is not examined by bfd_check_packet; instead
bfd_handle_packet discards every packet whose auth bit is set, after
session lookup, leaving the session state untouched. -/
theorem bfd_handle_packet_auth_discard (pkt : bfdpkt_t) (b : bfd_t) (now : Nat)
    (hauth : pkt.hdr.auth ≠ 0) :
    bfd_handle_packet pkt b now = b := by
  unfold bfd_handle_packet
  by_cases hc : bfd_check_packet pkt ≠ 0
  · rw [if_pos hc]
  · rw [if_neg hc, if_pos hauth]

/-- Witness for the amended C6 at a concrete input. -/
theorem bfd_handle_packet_auth_discard_witness :
    bfd_handle_packet (mk_peer_pkt 1 0 0 1 0) bfd_up 9 = bfd_up :=
  bfd_handle_packet_auth_discard (mk_peer_pkt 1 0 0 1 0) bfd_up 9 (by decide)

/-- Helper: closed form of the interval-recalculation block for the two
sides of its condition. -/
theorem bfd_handle_pkt_intervals_tx (pkt : bfdpkt_t) (b : bfd_t) :
    (((pkt.hdr.final ≠ 0 ∧ b.local_state = BFD_STATE_UP)
        ∨ (pkt.hdr.poll ≠ 0 ∧ b.local_state = BFD_STATE_UP)
        ∨ b.local_state ≠ BFD_STATE_UP) →
      (bfd_handle_pkt_intervals pkt b).local_tx_intv
          = max b.local_min_tx_intv b.remote_min_rx_intv ∧
      (bfd_handle_pkt_intervals pkt b).remote_tx_intv
          = max b.local_min_rx_intv b.remote_min_tx_intv) ∧
    (¬ ((pkt.hdr.final ≠ 0 ∧ b.local_state = BFD_STATE_UP)
        ∨ (pkt.hdr.poll ≠ 0 ∧ b.local_state = BFD_STATE_UP)
        ∨ b.local_state ≠ BFD_STATE_UP) →
      (bfd_handle_pkt_intervals pkt b).local_tx_intv = b.local_tx_intv ∧
      (bfd_handle_pkt_intervals pkt b).remote_tx_intv = b.remote_tx_intv) := by
  constructor
  · intro h
    simp only [bfd_handle_pkt_intervals, bfd_update_local_tx_intv, bfd_update_remote_tx_intv,
      if_pos h]
    simp
  · intro h
    simp only [bfd_handle_pkt_intervals, if_neg h]
    simp

/-- C7: on every accepted packet the two transmit intervals are recomputed
(local to max(local_min_tx_intv, remote_min_rx_intv), remote to
max(local_min_rx_intv, remote_min_tx_intv), with the remote minima taken
from the packet just copied in) exactly when the packet bears Final or
Poll or the local state is not Up; otherwise both are left unchanged. -/
theorem bfd_handle_packet_interval_recompute (pkt : bfdpkt_t) (b : bfd_t)
    (hacc : bfd_check_packet pkt = 0) (hauth : pkt.hdr.auth = 0)
    (hadm : b.local_state ≠ BFD_STATE_ADMINDOWN) :
    ((pkt.hdr.final ≠ 0 ∨ pkt.hdr.poll ≠ 0 ∨ b.local_state ≠ BFD_STATE_UP) →
      (bfd_handle_pkt_intervals pkt (bfd_handle_pkt_update pkt b)).local_tx_intv
          = max b.local_min_tx_intv pkt.hdr.min_rx_intv ∧
      (bfd_handle_pkt_intervals pkt (bfd_handle_pkt_update pkt b)).remote_tx_intv
          = max b.local_min_rx_intv pkt.hdr.min_tx_intv) ∧
    (¬ (pkt.hdr.final ≠ 0 ∨ pkt.hdr.poll ≠ 0 ∨ b.local_state ≠ BFD_STATE_UP) →
      (bfd_handle_pkt_intervals pkt (bfd_handle_pkt_update pkt b)).local_tx_intv
          = b.local_tx_intv ∧
      (bfd_handle_pkt_intervals pkt (bfd_handle_pkt_update pkt b)).remote_tx_intv
          = b.remote_tx_intv) := by
  have hU := bfd_handle_pkt_update_fields pkt b
  set U := bfd_handle_pkt_update pkt b with hUdef
  have hT := bfd_handle_pkt_intervals_tx pkt U
  constructor
  · intro h
    have hcond : (pkt.hdr.final ≠ 0 ∧ U.local_state = BFD_STATE_UP)
        ∨ (pkt.hdr.poll ≠ 0 ∧ U.local_state = BFD_STATE_UP)
        ∨ U.local_state ≠ BFD_STATE_UP := by
      rw [hU.1]
      by_cases hup : b.local_state = BFD_STATE_UP
      · rcases h with h | h | h
        · exact Or.inl ⟨h, hup⟩
        · exact Or.inr (Or.inl ⟨h, hup⟩)
        · exact absurd hup h
      · exact Or.inr (Or.inr hup)
    obtain ⟨e1, e2⟩ := hT.1 hcond
    rw [e1, e2, hU.2.2.2.1, hU.2.2.2.2.1, hU.2.2.2.2.2.1, hU.2.2.2.2.2.2.1]
    exact ⟨rfl, rfl⟩
  · intro h
    push_neg at h
    have hup : b.local_state = BFD_STATE_UP := by
      by_contra hc
      exact hc h.2.2
    have hcond : ¬ ((pkt.hdr.final ≠ 0 ∧ U.local_state = BFD_STATE_UP)
        ∨ (pkt.hdr.poll ≠ 0 ∧ U.local_state = BFD_STATE_UP)
        ∨ U.local_state ≠ BFD_STATE_UP) := by
      rw [hU.1]
      rintro (⟨hc, -⟩ | ⟨hc, -⟩ | hc)
      · exact hc h.1
      · exact hc h.2.1
      · exact hc hup
    obtain ⟨e1, e2⟩ := hT.2 hcond
    rw [e1, e2, hU.2.2.2.2.2.2.2.1, hU.2.2.2.2.2.2.2.2]
    exact ⟨rfl, rfl⟩

/-- Witness for C7 at a concrete input: the cold session (Down, so the
condition holds) adopts max(10 ms, 50 ms) = 50 ms on the first peer
packet; and the established Up session receiving a plain packet (no Poll,
no Final) keeps both intervals. -/
theorem bfd_handle_packet_interval_recompute_witness :
    ((bfd_handle_pkt_intervals (mk_peer_pkt 1 0 0 0 0)
        (bfd_handle_pkt_update (mk_peer_pkt 1 0 0 0 0) bfd_cold)).local_tx_intv
      = max bfd_cold.local_min_tx_intv (mk_peer_pkt 1 0 0 0 0).hdr.min_rx_intv ∧
     (bfd_handle_pkt_intervals (mk_peer_pkt 1 0 0 0 0)
        (bfd_handle_pkt_update (mk_peer_pkt 1 0 0 0 0) bfd_cold)).remote_tx_intv
      = max bfd_cold.local_min_rx_intv (mk_peer_pkt 1 0 0 0 0).hdr.min_tx_intv) ∧
    ((bfd_handle_pkt_intervals (mk_peer_pkt 3 0 0 0 42)
        (bfd_handle_pkt_update (mk_peer_pkt 3 0 0 0 42) bfd_up)).local_tx_intv
      = bfd_up.local_tx_intv ∧
     (bfd_handle_pkt_intervals (mk_peer_pkt 3 0 0 0 42)
        (bfd_handle_pkt_update (mk_peer_pkt 3 0 0 0 42) bfd_up)).remote_tx_intv
      = bfd_up.remote_tx_intv) :=
  ⟨(bfd_handle_packet_interval_recompute (mk_peer_pkt 1 0 0 0 0) bfd_cold
      (by decide) (by decide) (by decide)).1 (by decide),
   (bfd_handle_packet_interval_recompute (mk_peer_pkt 3 0 0 0 42) bfd_up
      (by decide) (by decide) (by decide)).2 (by decide)⟩

/-- Counterexample to C8 as stated: with multiplier 1 and a transmit
interval of 15 us the truncated 10 percent minimum jitter is 1 us, so the
minimal draw gives a delay of 14 us, which exceeds 0.90 x 15 = 13.5 us:
the delay does not lie within [0.75 x I, 0.90 x I]. (Any interval not a
multiple of 10 behaves alike, e.g. 1000005 us gives 900005 > 900004.5.) -/
theorem bfd_sender_delay_ninety_pct_cex :
    bfd_jitter15.local_detect_mult = 1 ∧
    bfd_sender_min_jitter bfd_jitter15 = 1 ∧
    bfd_sender_max_jitter bfd_jitter15 = 3 ∧
    bfd_sender_delay bfd_jitter15 1 = 14 ∧
    ¬ (10 * bfd_sender_delay bfd_jitter15 1 ≤ 9 * bfd_jitter15.local_tx_intv) := by
  decide

/-- C8 amended: for every session with multiplier >= 1 and every jitter
draw in [min_jitter, max_jitter] the scheduled delay lies within
[0.75 x I, 1.00 x I]; when the multiplier is 1 (in fact whenever it is
non-zero) the delay is at most I minus the truncated ten percent of I,
which is 0.90 x I when 10 divides I and exceeds it by less than 1 us
otherwise. -/
theorem bfd_sender_delay_bounds (b : bfd_t) (jitter : Nat)
    (hmult : 1 ≤ b.local_detect_mult)
    (hlo : bfd_sender_min_jitter b ≤ jitter)
    (hhi : jitter ≤ bfd_sender_max_jitter b) :
    3 * b.local_tx_intv ≤ 4 * bfd_sender_delay b jitter ∧
    bfd_sender_delay b jitter ≤ b.local_tx_intv ∧
    (b.local_detect_mult = 1 →
      bfd_sender_delay b jitter ≤ b.local_tx_intv - b.local_tx_intv / 10) := by
  unfold bfd_sender_delay
  unfold bfd_sender_min_jitter at hlo
  unfold bfd_sender_max_jitter at hhi
  rw [if_pos (by omega : b.local_detect_mult ≠ 0)] at hlo
  refine ⟨by omega, by omega, fun _ => by omega⟩

/-- Witness for the amended C8 at a concrete input: the established Up
session (I = 50 ms, multiplier 5) with a mid-range jitter draw. -/
theorem bfd_sender_delay_bounds_witness :
    3 * bfd_up.local_tx_intv ≤ 4 * bfd_sender_delay bfd_up 7000 ∧
    bfd_sender_delay bfd_up 7000 ≤ bfd_up.local_tx_intv ∧
    (bfd_up.local_detect_mult = 1 →
      bfd_sender_delay bfd_up 7000 ≤ bfd_up.local_tx_intv - bfd_up.local_tx_intv / 10) :=
  bfd_sender_delay_bounds bfd_up 7000 (by decide) (by decide) (by decide)

/-- Counterexample to C9 as stated: after the reset timer fires the remote
state field is BFD_STATE_DOWN, the value 1, not zero (bfd0 initialises
remote_state to Down, not AdminDown). -/
theorem bfd_reset_thread_remote_state_cex :
    (bfd_reset_thread bfd_stale 99).remote_state = BFD_STATE_DOWN ∧
    (bfd_reset_thread bfd_stale 99).remote_state ≠ 0 := by
  decide

/-- C9 amended: when the reset timer fires on a Down session the runtime is
reset: local_discr becomes the fresh non-zero random value, remote state
becomes Down (its bfd0 value, encoded 1), the remaining remote fields
(diagnostic, discriminator, both interval minima, demand, detection
multiplier) become zero, local_tx_intv becomes local_idle_tx_intv and the
local state stays Down. -/
theorem bfd_reset_thread_spec (b : bfd_t) (fresh : Nat)
    (hdown : b.local_state = BFD_STATE_DOWN) (hfresh : fresh ≠ 0) :
    (bfd_reset_thread b fresh).local_discr = fresh ∧
    (bfd_reset_thread b fresh).local_discr ≠ 0 ∧
    (bfd_reset_thread b fresh).remote_state = BFD_STATE_DOWN ∧
    (bfd_reset_thread b fresh).remote_diag = 0 ∧
    (bfd_reset_thread b fresh).remote_discr = 0 ∧
    (bfd_reset_thread b fresh).remote_min_tx_intv = 0 ∧
    (bfd_reset_thread b fresh).remote_min_rx_intv = 0 ∧
    (bfd_reset_thread b fresh).remote_demand = 0 ∧
    (bfd_reset_thread b fresh).remote_detect_mult = 0 ∧
    (bfd_reset_thread b fresh).local_tx_intv = b.local_idle_tx_intv ∧
    (bfd_reset_thread b fresh).local_state = BFD_STATE_DOWN := by
  unfold bfd_reset_thread bfd_init_state bfd_copy_state bfd0
  refine ⟨by simp, by simpa using hfresh, ?_⟩
  simp [BFD_DIAG_NO_DIAG]

/-- Witness for the amended C9 at a concrete input. -/
theorem bfd_reset_thread_spec_witness :
    (bfd_reset_thread bfd_stale 99).local_discr = 99 ∧
    (bfd_reset_thread bfd_stale 99).local_discr ≠ 0 ∧
    (bfd_reset_thread bfd_stale 99).remote_state = BFD_STATE_DOWN ∧
    (bfd_reset_thread bfd_stale 99).remote_diag = 0 ∧
    (bfd_reset_thread bfd_stale 99).remote_discr = 0 ∧
    (bfd_reset_thread bfd_stale 99).remote_min_tx_intv = 0 ∧
    (bfd_reset_thread bfd_stale 99).remote_min_rx_intv = 0 ∧
    (bfd_reset_thread bfd_stale 99).remote_demand = 0 ∧
    (bfd_reset_thread bfd_stale 99).remote_detect_mult = 0 ∧
    (bfd_reset_thread bfd_stale 99).local_tx_intv = bfd_stale.local_idle_tx_intv ∧
    (bfd_reset_thread bfd_stale 99).local_state = BFD_STATE_DOWN :=
  bfd_reset_thread_spec bfd_stale 99 (by decide) (by decide)

/-- Counterexample to C10 as stated: an out-of-range min_rx value (2000 ms,
above the 1..1000 range) does not disable the session; the handler ignores
the value and leaves the session record, including its disabled flag,
unchanged. -/
theorem bfd_minrx_out_of_range_cex :
    bfd_cold.disabled = false ∧
    (2000 : Int) > BFD_MINRX_MAX ∧
    (bfd_minrx_handler bfd_cold 2000).disabled = false ∧
    bfd_minrx_handler bfd_cold 2000 = bfd_cold := by
  decide

/-- C10 amended: a configuration value out of the documented range (min_rx
or min_tx outside 1..1000 ms, idle_tx outside 1000..10000 ms, multiplier
outside 1..10) is ignored: the handler logs and returns with the session,
in particular its disabled flag, unchanged, and the daemon never aborts
(each handler is total). Sessions are disabled only for name or neighbor
address errors. -/
theorem bfd_config_handlers_ignore_out_of_range (b : bfd_t) (v : Int) :
    ((v < BFD_MINRX_MIN ∨ v > BFD_MINRX_MAX) → bfd_minrx_handler b v = b) ∧
    ((v < BFD_MINTX_MIN ∨ v > BFD_MINTX_MAX) → bfd_mintx_handler b v = b) ∧
    ((v < BFD_IDLETX_MIN ∨ v > BFD_IDLETX_MAX) → bfd_idletx_handler b v = b) ∧
    ((v < BFD_MULTIPLIER_MIN ∨ v > BFD_MULTIPLIER_MAX) → bfd_multiplier_handler b v = b) := by
  refine ⟨fun h => ?_, fun h => ?_, fun h => ?_, fun h => ?_⟩
  · unfold bfd_minrx_handler
    rw [if_pos h]
  · unfold bfd_mintx_handler
    rw [if_pos h]
  · unfold bfd_idletx_handler
    rw [if_pos h]
  · unfold bfd_multiplier_handler
    rw [if_pos h]

/-- Witness for the amended C10 at concrete out-of-range inputs for all
four handlers. -/
theorem bfd_config_handlers_ignore_out_of_range_witness :
    bfd_minrx_handler bfd_cold 2000 = bfd_cold ∧
    bfd_mintx_handler bfd_cold 0 = bfd_cold ∧
    bfd_idletx_handler bfd_cold 500 = bfd_cold ∧
    bfd_multiplier_handler bfd_cold 11 = bfd_cold :=
  ⟨(bfd_config_handlers_ignore_out_of_range bfd_cold 2000).1 (by decide),
   (bfd_config_handlers_ignore_out_of_range bfd_cold 0).2.1 (by decide),
   (bfd_config_handlers_ignore_out_of_range bfd_cold 500).2.2.1 (by decide),
   (bfd_config_handlers_ignore_out_of_range bfd_cold 11).2.2.2 (by decide)⟩

/-- C3 fails on the code: along a concrete reachable run (cold bring-up to
Up by two accepted packets, a poll sequence started by bfd_set_poll, then
an accepted peer packet carrying the Poll bit) the session ends with
poll = 1 and final = 1 simultaneously, and the immediate transmit the
handler queues builds an outbound packet with both bits set, which
bfd_check_packet itself would reject as bogus. The handler sets final
without clearing or checking poll, while bfd_set_poll carefully refuses to
set poll while final is pending: the invariant is clearly intended and
this is a slip. -/
theorem bfd_poll_final_both_set_bug :
    bfd_check_packet (mk_peer_pkt 1 0 0 0 0) = 0 ∧
    bfd_check_packet (mk_peer_pkt 2 0 0 0 42) = 0 ∧
    bfd_check_packet (mk_peer_pkt 3 1 0 0 42) = 0 ∧
    bfd_trace2.local_state = BFD_STATE_UP ∧
    bfd_trace3.poll = 1 ∧ bfd_trace3.final = 0 ∧
    bfd_trace4.poll = 1 ∧ bfd_trace4.final = 1 ∧
    (bfd_sender_thread bfd_trace4 true true).1.poll = 1 ∧
    (bfd_sender_thread bfd_trace4 true true).1.final = 1 ∧
    bfd_check_packet { hdr := (bfd_sender_thread bfd_trace4 true true).1, ttl := 255, len := 24 }
      ≠ 0 := by
  decide

set_option maxHeartbeats 4000000 in
/-- C5: bfd_check_packet rejects (returns nonzero) exactly when one of the
eleven listed conditions holds; the auth bit plays no role here. -/
theorem bfd_check_packet_rejects_iff (pkt : bfdpkt_t) :
    bfd_check_packet pkt ≠ 0 ↔
      (pkt.len < 24 ∨
       pkt.hdr.len ≠ pkt.len ∨
       (pkt.ttl ≠ 0 ∧ pkt.ttl ≠ BFD_CONTROL_TTL) ∨
       pkt.hdr.version ≠ BFD_VERSION_1 ∨
       pkt.hdr.detect_mult = 0 ∨
       pkt.hdr.multipoint ≠ 0 ∨
       pkt.hdr.local_discr = 0 ∨
       (pkt.hdr.remote_discr = 0 ∧ pkt.hdr.state ≠ BFD_STATE_DOWN
          ∧ pkt.hdr.state ≠ BFD_STATE_ADMINDOWN) ∨
       (pkt.hdr.poll ≠ 0 ∧ pkt.hdr.final ≠ 0) ∨
       ¬ BFD_VALID_STATE pkt.hdr.state ∨
       ¬ BFD_VALID_DIAG pkt.hdr.diag) := by
  simp only [bfd_check_packet]
  by_cases h1 : pkt.len < 24
  · simp only [if_pos h1]; exact iff_of_true one_ne_zero (by tauto)
  · simp only [if_neg h1]
    by_cases h2 : pkt.hdr.len ≠ pkt.len
    · simp only [if_pos h2]; exact iff_of_true one_ne_zero (by tauto)
    · simp only [if_neg h2]
      by_cases h3 : pkt.ttl ≠ 0 ∧ pkt.ttl ≠ BFD_CONTROL_TTL
      · simp only [if_pos h3]; exact iff_of_true one_ne_zero (by tauto)
      · simp only [if_neg h3]
        by_cases h4 : pkt.hdr.version ≠ BFD_VERSION_1
        · simp only [if_pos h4]; exact iff_of_true one_ne_zero (by tauto)
        · simp only [if_neg h4]
          by_cases h5 : pkt.hdr.detect_mult = 0
          · simp only [if_pos h5]; exact iff_of_true one_ne_zero (by tauto)
          · simp only [if_neg h5]
            by_cases h6 : pkt.hdr.multipoint ≠ 0
            · simp only [if_pos h6]; exact iff_of_true one_ne_zero (by tauto)
            · simp only [if_neg h6]
              by_cases h7 : pkt.hdr.local_discr = 0
              · simp only [if_pos h7]; exact iff_of_true one_ne_zero (by tauto)
              · simp only [if_neg h7]
                by_cases h8 : pkt.hdr.remote_discr = 0 ∧ pkt.hdr.state ≠ BFD_STATE_DOWN
                    ∧ pkt.hdr.state ≠ BFD_STATE_ADMINDOWN
                · simp only [if_pos h8]; exact iff_of_true one_ne_zero (by tauto)
                · simp only [if_neg h8]
                  by_cases h9 : pkt.hdr.poll ≠ 0 ∧ pkt.hdr.final ≠ 0
                  · simp only [if_pos h9]; exact iff_of_true one_ne_zero (by tauto)
                  · simp only [if_neg h9]
                    by_cases h10 : ¬ BFD_VALID_STATE pkt.hdr.state
                    · simp only [if_pos h10]; exact iff_of_true one_ne_zero (by tauto)
                    · simp only [if_neg h10]
                      by_cases h11 : ¬ BFD_VALID_DIAG pkt.hdr.diag
                      · simp only [if_pos h11]; exact iff_of_true one_ne_zero (by tauto)
                      · simp only [if_neg h11]
                        exact iff_of_false (by simp) (by tauto)
